import Mathlib

/-!
Shallow embedding of `cmd/scepserver/scepserver.go` (package main of the
scep server): configuration resolution from flags and environment
variables, the CA depot bootstrap (`caMain` and its three provisioning
strategies), the signer middleware composition, and the listener/signal
race of `main`.

Modelling conventions:
* The filesystem is an association list from path strings to byte lists
  (`List Nat`); `filepath.Join a b` is `a ++ "/" ++ b`.
* External crypto and library collaborators (rsa.GenerateKey,
  x509.EncryptPEMBlock, pem.Encode, NewCACert().SelfSign,
  pem.EncodeToMemory) are parameters gathered in `CaOracle`: each is an
  arbitrary outcome, so theorems quantify over every possible behaviour
  of the collaborator.
* `os.MkdirAll` is modelled as succeeding (the flat file model has no
  directories); its failure branches only propagate an error and are not
  the subject of any claim.
-/

namespace Scepserver

/-- A modelled filesystem: association list from full path to file bytes. -/
abbrev FS := List (String × List Nat)

/-- Look a file up by path (`ioutil.ReadFile`, minus I/O errors other
than not-found). -/
def readFile (fs : FS) (name : String) : Option (List Nat) :=
  (fs.find? (fun p => p.1 = name)).map (fun p => p.2)

/-- Remove a file (`os.Remove`); removing an absent file is a no-op here. -/
def removeFile (fs : FS) (name : String) : FS :=
  fs.filter (fun p => ¬ p.1 = name)

/-- Create-or-truncate write (`ioutil.WriteFile` semantics). -/
def writeFile (fs : FS) (name : String) (data : List Nat) : FS :=
  (name, data) :: removeFile fs name

/-- `os.OpenFile(name, os.O_WRONLY|os.O_CREATE|os.O_EXCL, ...)`: fails if
the file exists, otherwise creates it empty. -/
def openFileExcl (fs : FS) (name : String) : Except Unit FS :=
  if (readFile fs name).isSome then .error () else .ok (writeFile fs name [])

/-- Whether a full path lies at or under a directory: it is the directory
itself, or the directory plus a separator is a prefix of it. -/
def isUnder (dir p : String) : Bool :=
  p == dir || (dir ++ "/").data.isPrefixOf p.data

/-- `os.RemoveAll path`: drops the path itself and everything below it. -/
def removeAll (fs : FS) (path : String) : FS :=
  fs.filter (fun p => ! isUnder path p.1)

/-- `filepath.Join` for the two-component joins used by the server. -/
def joinPath (dir name : String) : String := dir ++ "/" ++ name

/-- `[]byte(s)`: the bytes of a Go string, modelled as the code points. -/
def strBytes (s : String) : List Nat := s.data.map Char.toNat

/-! ## Configuration resolution (lines 50-91, 408-442)

The environment is an association list of present variables (a present
variable may hold the empty string, which `os.LookupEnv` still reports as
present). Command-line flag usage is modelled by `Option String`: `some v`
means the flag was passed on the command line with value `v`, `none` means
it was not passed, so it keeps its declared default. -/

/-- The process environment: variables that are present, with their values. -/
abbrev Env := List (String × String)

/-- `os.LookupEnv`: present/absent plus the value. -/
def lookupEnv (e : Env) (key : String) : Option String :=
  (e.find? (fun p => p.1 = key)).map (fun p => p.2)

/-- `os.Getenv`: empty string when the variable is absent. -/
def getenv (e : Env) (key : String) : String :=
  (lookupEnv e key).getD ""

/-- `envString` (line 408): the environment value when present and
non-empty, else the supplied default. -/
def envString (e : Env) (key d : String) : String :=
  if getenv e key ≠ "" then getenv e key else d

/-- `envBool` (line 427): true exactly when the variable holds "true". -/
def envBool (e : Env) (key : String) : Bool :=
  getenv e key = "true"

/-- The command-line surface of `main` relevant to address resolution:
whether `-http-addr` and `-port` were passed, and with what value. -/
structure Cmdline where
  httpAddr : Option String
  port : Option String

/-- The resolved value of the `http-addr` flag (line 50): the explicit
command-line value if passed, else its declared default
`envString("SCEP_HTTP_ADDR", "")`. -/
def flHTTPAddr (c : Cmdline) (e : Env) : String :=
  c.httpAddr.getD (envString e "SCEP_HTTP_ADDR" "")

/-- The resolved value of the `port` flag (line 51): the explicit
command-line value if passed, else `envString("SCEP_HTTP_LISTEN_PORT", "8080")`. -/
def flPort (c : Cmdline) (e : Env) : String :=
  c.port.getD (envString e "SCEP_HTTP_LISTEN_PORT" "8080")

/-- `setByUser` (line 434) for the `http-addr` flag: passed on the command
line, or its environment variable exists (`os.LookupEnv`, even empty). -/
def httpAddrSet (c : Cmdline) (e : Env) : Bool :=
  c.httpAddr.isSome || (lookupEnv e "SCEP_HTTP_ADDR").isSome

/-- `setByUser` (line 434) for the `port` flag. -/
def portSet (c : Cmdline) (e : Env) : Bool :=
  c.port.isSome || (lookupEnv e "SCEP_HTTP_LISTEN_PORT").isSome

/-- Lines 83-91 of `main`: the `-http-addr`/`-port` conflict check and
listen-address resolution. `.error` corresponds to printing the conflict
message and `os.Exit(1)`. -/
def resolveHttpAddr (c : Cmdline) (e : Env) : Except String String :=
  if httpAddrSet c e && portSet c e then
    .error "cannot set both -http-addr and -port"
  else if httpAddrSet c e then
    .ok (flHTTPAddr c e)
  else
    .ok (":" ++ flPort c e)

/-! ## CA bootstrap: `caMain` and friends (lines 241-406) -/

/-- Abstract handle for an external `rsa.PrivateKey` value. -/
abbrev RSAKey := Nat

/-- Abstract handle for an external `pem.Block` value. -/
abbrev PemBlock := Nat

/-- Outcomes of the external collaborators used during CA bootstrap.
Each field stands for one fallible library call of the Go code; theorems
quantify over the whole structure, hence over every collaborator
behaviour. `writeOk` is the outcome of the `file.Write` call inside
`storeFileInDepot`. -/
structure CaOracle where
  /-- `rsa.GenerateKey(rand.Reader, bits)` -/
  genKey : Nat → Except Unit RSAKey
  /-- `x509.EncryptPEMBlock(rand, type, der, password, 3DES)` -/
  encrypt : RSAKey → List Nat → Except Unit PemBlock
  /-- `pem.Encode(file, block)`: on success, the bytes written -/
  pemEncode : PemBlock → Except Unit (List Nat)
  /-- `NewCACert(years, cn, org, ou, country).SelfSign(rand, pub, priv)` -/
  selfSign : RSAKey → Nat → String → String → String → String → Except Unit (List Nat)
  /-- `pem.EncodeToMemory` of a CERTIFICATE block -/
  pemEncodeToMemory : List Nat → List Nat
  /-- outcome of `file.Write(data)` in `storeFileInDepot` -/
  writeOk : Bool

/-- Failure cases of `createKey`. -/
inductive CreateKeyErr
  | alreadyExists
  | genFail
  | encryptFail
  | encodeFail
deriving DecidableEq, Repr

/-- `createKey` (line 321): exclusively create `depot/ca.key`, generate an
RSA key, passphrase-encrypt it, and PEM-encode it into the file. Returns
the filesystem after the call together with the result. Mirrors the Go
control flow exactly: only the `pem.Encode` failure branch removes the
created file; the key-generation and encryption failure branches return
with the (empty) file still present. -/
def createKey (fs : FS) (bits : Nat) (password : List Nat) (depot : String)
    (o : CaOracle) : FS × Except CreateKeyErr RSAKey :=
  let name := joinPath depot "ca.key"
  match openFileExcl fs name with
  | .error _ => (fs, .error .alreadyExists)
  | .ok fs1 =>
    match o.genKey bits with
    | .error _ => (fs1, .error .genFail)
    | .ok key =>
      match o.encrypt key password with
      | .error _ => (fs1, .error .encryptFail)
      | .ok block =>
        match o.pemEncode block with
        | .error _ => (removeFile fs1 name, .error .encodeFail)
        | .ok bytes => (writeFile fs1 name bytes, .ok key)

/-- `storeFileInDepot` (line 356): exclusively create `depot/filename` and
write `data` into it; a failed write removes the created file. Returns
the filesystem after the call and ok/error. -/
def storeFileInDepot (fs : FS) (depot filename : String) (data : List Nat)
    (writeOk : Bool) : FS × Except Unit Unit :=
  let name := joinPath depot filename
  match openFileExcl fs name with
  | .error _ => (fs, .error ())
  | .ok fs1 =>
    if writeOk then (writeFile fs1 name data, .ok ())
    else (removeFile fs1 name, .error ())

/-- `copyFileToDepot` (line 302): read the source file and write it into
the depot with `ioutil.WriteFile` — a create-or-truncate write, not an
exclusive create. -/
def copyFileToDepot (fs : FS) (sourceFile depotPath filename : String)
    (writeOk : Bool) : Except Unit FS :=
  match readFile fs sourceFile with
  | none => .error ()
  | some input =>
    if writeOk then .ok (writeFile fs (joinPath depotPath filename) input)
    else .error ()

/-- `pemCert` (line 398): wrap DER bytes in a CERTIFICATE PEM block via
`pem.EncodeToMemory`. -/
def pemCert (o : CaOracle) (derBytes : List Nat) : List Nat :=
  o.pemEncodeToMemory derBytes

/-- `createCertificateAuthority` (line 377): self-sign a CA certificate
for the new key and store its PEM encoding as `ca.pem`. -/
def createCertificateAuthority (key : RSAKey) (years : Nat)
    (commonName organization organizationalUnit country depot : String)
    (fs : FS) (o : CaOracle) : FS × Except Unit Unit :=
  match o.selfSign key years commonName organization organizationalUnit country with
  | .error _ => (fs, .error ())
  | .ok crtBytes => storeFileInDepot fs depot "ca.pem" (pemCert o crtBytes) o.writeOk

/-- The resolved flag values of the `ca` subcommand (lines 242-256). -/
structure CaFlags where
  depotPath : String
  years : Nat
  keySize : Nat
  commonName : String
  org : String
  orgUnit : String
  password : String
  country : String
  inlineCert : String
  inlineKey : String
  pathCert : String
  pathKey : String

/-- The inline-material branch of `caMain` (lines 265-275): store the
configured certificate and key bytes via `storeFileInDepot`, `ca.pem`
first. Returns the process exit status and the filesystem after. -/
def runInline (f : CaFlags) (fs : FS) (o : CaOracle) : Nat × FS :=
  match storeFileInDepot fs f.depotPath "ca.pem" (strBytes f.inlineCert) o.writeOk with
  | (fs1, .error _) => (1, fs1)
  | (fs1, .ok _) =>
    match storeFileInDepot fs1 f.depotPath "ca.key" (strBytes f.inlineKey) o.writeOk with
    | (fs2, .error _) => (1, fs2)
    | (fs2, .ok _) => (0, fs2)

/-- The path-copy branch of `caMain` (lines 276-285): copy the two files
at the configured paths into the depot via `copyFileToDepot`. -/
def runPathCopy (f : CaFlags) (fs : FS) (o : CaOracle) : Nat × FS :=
  match copyFileToDepot fs f.pathCert f.depotPath "ca.pem" o.writeOk with
  | .error _ => (1, fs)
  | .ok fs1 =>
    match copyFileToDepot fs1 f.pathKey f.depotPath "ca.key" o.writeOk with
    | .error _ => (1, fs1)
    | .ok fs2 => (0, fs2)

/-- The generate branch of `caMain` (lines 286-296): create and store a
new key, then self-sign and store the CA certificate. -/
def runGenerate (f : CaFlags) (fs : FS) (o : CaOracle) : Nat × FS :=
  match createKey fs f.keySize (strBytes f.password) f.depotPath o with
  | (fs1, .error _) => (1, fs1)
  | (fs1, .ok key) =>
    match createCertificateAuthority key f.years f.commonName f.org f.orgUnit
        f.country f.depotPath fs1 o with
    | (fs2, .error _) => (1, fs2)
    | (fs2, .ok _) => (0, fs2)

/-- `caMain` (line 241) after flag parsing: branch selection between the
three provisioning strategies, exactly as the Go `if`/`else if`/`else`. -/
def caMain (f : CaFlags) (fs : FS) (o : CaOracle) : Nat × FS :=
  if f.inlineCert ≠ "" ∧ f.inlineKey ≠ "" then runInline f fs o
  else if f.pathCert ≠ "" ∧ f.pathKey ≠ "" then runPathCopy f fs o
  else runGenerate f fs o

/-- The three provisioning strategies. -/
inductive Strategy
  | inlineMaterial
  | pathCopy
  | generate
deriving DecidableEq, Repr

/-- Modelled from the spec's words (section 4.3): the strategy that should
run, selected by input presence with first-match priority. Used to compare
the claimed selection rule with `caMain`. -/
def chosenStrategy (f : CaFlags) : Strategy :=
  if f.inlineCert ≠ "" ∧ f.inlineKey ≠ "" then .inlineMaterial
  else if f.pathCert ≠ "" ∧ f.pathKey ≠ "" then .pathCopy
  else .generate

/-! ## Signer middleware chain (lines 184-198)

The two middleware constructors live in this repository's
`server/csrsigner.go` and `csrverifier/middleware.go`, which are not part
of the extracted source; they are modelled from the spec (section 4.4).
To make "is never evaluated / never invoked" statable, a signer returns
the list of policy events it performed alongside its result. -/

/-- Observable events of a signing-chain evaluation. -/
inductive SigEvent
  | verifierCalled
  | challengeCompared
  | depotSigned
deriving DecidableEq, Repr

/-- A signing request: the embedded challenge-password attribute and the
raw CSR bytes. -/
structure SigningRequest where
  challengePassword : String
  rawCSR : List Nat

/-- An issued certificate, abstract. -/
abbrev Cert := Nat

/-- A `scepserver.CSRSigner`: produce a certificate or fail, recording
the policy events evaluated along the way. -/
abbrev CSRSigner := SigningRequest → List SigEvent × Except String Cert

/-- `scepdepot.NewSigner(depot, opts...)` as a chain terminal: touches the
depot and returns whatever the depot signing operation yields. The depot
outcome is a parameter (external collaborator). -/
def depotSigner (base : SigningRequest → Except String Cert) : CSRSigner :=
  fun req => ([SigEvent.depotSigned], base req)

/-- Modelled from the spec: `scepserver.ChallengeMiddleware` (repository
code outside the extracted source). Compares the request's embedded
challenge attribute against the configured secret; on mismatch rejects
without invoking the inner signer, on match forwards unchanged. -/
def ChallengeMiddleware (challenge : String) (next : CSRSigner) : CSRSigner :=
  fun req =>
    if req.challengePassword = challenge then
      let (evs, r) := next req
      (SigEvent.challengeCompared :: evs, r)
    else
      ([SigEvent.challengeCompared], .error "challenge mismatch")

/-- Modelled from the spec: `csrverifier.Middleware` (repository code
outside the extracted source). Hands the raw CSR bytes to the external
verifier; rejects without invoking the inner chain when the verifier
rejects or errors, forwards unchanged when it accepts. -/
def csrverifierMiddleware (verdict : List Nat → Bool) (next : CSRSigner) : CSRSigner :=
  fun req =>
    if verdict req.rawCSR then
      let (evs, r) := next req
      (SigEvent.verifierCalled :: evs, r)
    else
      ([SigEvent.verifierCalled], .error "CSR failed verification")

/-- Lines 192-198 of `main`: the signer composition. Start from the depot
signer; wrap in `ChallengeMiddleware` when a challenge password is
configured; wrap the result in `csrverifier.Middleware` when a CSR
verifier is configured. -/
def buildSigner (challengePassword : String) (hasVerifier : Bool)
    (verdict : List Nat → Bool) (base : SigningRequest → Except String Cert) :
    CSRSigner :=
  let signer := depotSigner base
  let signer := if challengePassword ≠ "" then ChallengeMiddleware challengePassword signer else signer
  let signer := if hasVerifier then csrverifierMiddleware verdict signer else signer
  signer

/-! ## The listener/signal race (lines 216-238) -/

/-- Capacity of the shared `errs` channel (`make(chan error, 2)`). -/
def errsCapacity : Nat := 2

/-- Number of sends the server goroutine (lines 217-231) performs on the
`errs` channel: in lambda mode it calls `lambda.Start` and sends nothing;
otherwise it sends the `http.ListenAndServe` error. -/
def serverGoroutineSends (lambdaMode : Bool) : Nat :=
  if lambdaMode then 0 else 1

/-- Number of sends the signal-watcher goroutine (lines 232-236) performs
on the `errs` channel: exactly one, the received signal wrapped as an
error. -/
def signalGoroutineSends : Nat := 1

/-- Total sends on the `errs` channel across both producers. -/
def totalSends (lambdaMode : Bool) : Nat :=
  serverGoroutineSends lambdaMode + signalGoroutineSends

/-- Number of receives the launcher performs before terminating
(line 238: `lginfo.Log("terminated", <-errs)` then `main` returns). -/
def launcherReceives : Nat := 1

/-! ## Startup sequence of `main` (lines 81-238)

A trace model of the order of the startup steps, for the claims about
what happens (or does not happen) before a fatal configuration exit.
The `version` early exit (lines 75-78) and the `ca` subcommand dispatch
(lines 37-45) precede this sequence and are outside it. The steps between
depot opening and transport start (integer parsing, verifier creation,
CA loading, service and handler construction, lines 153-213) are
collapsed into one parametrized outcome `midOk`, since no claim looks
inside them. -/

/-- Observable startup actions of `main`. -/
inductive MainAction
  /-- `ioutil.ReadDir(*flDepotPath)` (line 117) -/
  | depotList
  /-- `os.RemoveAll(*flDepotPath)` (line 128) -/
  | depotRemove
  /-- `file.NewFileDepot(*flDepotPath)` (lines 138, 145) -/
  | depotOpen
  /-- the `caMain` call of the init-CA fallback (line 144) -/
  | caInit
  /-- `lambda.Start(...)` (line 226) -/
  | lambdaStart
  /-- `http.ListenAndServe(httpAddr, h)` (line 229) -/
  | listenStart (addr : String)
deriving DecidableEq, Repr

/-- The command-line and resolved-flag surface of `main` used by the
startup sequence. `httpAddr`/`port` model command-line presence as in
`Cmdline`; the boolean toggles and the depot path carry their resolved
values (their flag/env resolution is not under any claim). -/
structure MainFlags where
  httpAddr : Option String
  port : Option String
  depotPath : String
  deleteCA : Bool
  initCA : Bool
  lambdaMode : Bool

/-- The filesystem right after the delete-CA step (lines 127-132): when
the toggle is set and `os.RemoveAll` succeeds, the whole depot tree is
gone; a removal failure is only logged and leaves the tree in place. This
is the filesystem handed to the first `file.NewFileDepot` call. -/
def fsAtDepotOpen (m : MainFlags) (fs0 : FS) (removeOk : Bool) : FS :=
  if m.deleteCA then
    (if removeOk then removeAll fs0 m.depotPath else fs0)
  else fs0

/-- The startup actions up to and including the first depot open: the
depot listing (line 117), the delete-CA removal when toggled (line 128),
then the open (line 138). A removal failure does not change this list —
startup continues either way. -/
def actsAtDepotOpen (m : MainFlags) : List MainAction :=
  (if m.deleteCA then [MainAction.depotList, MainAction.depotRemove]
   else [MainAction.depotList]) ++ [MainAction.depotOpen]

/-- The startup sequence of `main` from the address-conflict check
(line 81) to the transport start (lines 216-231): the performed actions
in order, the filesystem afterwards, and `some code` when the process
exits during startup. `removeOk` is the outcome of `os.RemoveAll`
(its failure is only logged, line 130); `openDepot` the outcome of
`file.NewFileDepot` on the filesystem it is given; `caf` and `o` feed the
init-CA fallback; `midOk` collapses lines 153-213. -/
def mainStartup (m : MainFlags) (e : Env) (caf : CaFlags) (o : CaOracle)
    (fs0 : FS) (removeOk : Bool) (openDepot : FS → Bool) (midOk : Bool) :
    List MainAction × FS × Option Nat :=
  match resolveHttpAddr ⟨m.httpAddr, m.port⟩ e with
  | .error _ => ([], fs0, some 1)
  | .ok addr =>
    let afterOpen : List MainAction → FS → List MainAction × FS × Option Nat :=
      fun acts fs =>
        if midOk then
          if m.lambdaMode then (acts ++ [.lambdaStart], fs, none)
          else (acts ++ [.listenStart addr], fs, none)
        else (acts, fs, some 1)
    let fs1 := fsAtDepotOpen m fs0 removeOk
    let acts2 := actsAtDepotOpen m
    if openDepot fs1 then afterOpen acts2 fs1
    else if m.initCA then
      let fs2 := (caMain caf fs1 o).2
      let acts3 := acts2 ++ [MainAction.caInit, MainAction.depotOpen]
      if openDepot fs2 then afterOpen acts3 fs2
      else (acts3, fs2, some 1)
    else (acts2, fs1, some 1)

/-! ## Concrete collaborators for evaluation -/

/-- A collaborator whose calls all succeed, for concrete evaluations. -/
def trivOracle : CaOracle :=
  ⟨fun _ => .ok 0, fun _ _ => .ok 0, fun _ => .ok [7], fun _ _ _ _ _ _ => .ok [8], id, true⟩

/-- A collaborator whose key generation fails. -/
def genFailOracle : CaOracle :=
  ⟨fun _ => .error (), fun _ _ => .ok 0, fun _ => .ok [7], fun _ _ _ _ _ _ => .ok [8], id, true⟩

/-- A collaborator whose passphrase encryption fails. -/
def encryptFailOracle : CaOracle :=
  ⟨fun _ => .ok 5, fun _ _ => .error (), fun _ => .ok [7], fun _ _ _ _ _ _ => .ok [8], id, true⟩

/-- A collaborator whose PEM encoding fails. -/
def encodeFailOracle : CaOracle :=
  ⟨fun _ => .ok 5, fun _ _ => .ok 6, fun _ => .error (), fun _ _ _ _ _ _ => .ok [8], id, true⟩

/-- `ca` subcommand flags that select the generate strategy, for concrete
evaluations. -/
def genCaFlags : CaFlags :=
  ⟨"depot", 10, 2048, "MICROMDM SCEP CA", "scep-ca", "SCEP CA", "", "US", "", "", "", ""⟩

/-! ## Basic filesystem lemmas -/

theorem readFile_writeFile_self (fs : FS) (name : String) (data : List Nat) :
    readFile (writeFile fs name data) name = some data := by
  simp [readFile, writeFile, List.find?_cons]

theorem readFile_removeFile_self (fs : FS) (name : String) :
    readFile (removeFile fs name) name = none := by
  induction fs with
  | nil => rfl
  | cons p t ih =>
    by_cases h : p.1 = name
    · have hdrop : removeFile (p :: t) name = removeFile t name := by
        simp [removeFile, List.filter_cons, h]
      rw [hdrop]
      exact ih
    · have hkeep : readFile (removeFile (p :: t) name) name =
          readFile (removeFile t name) name := by
        simp [removeFile, readFile, List.filter_cons, List.find?_cons, h]
      rw [hkeep]
      exact ih

theorem isUnder_joinPath (path sub : String) :
    isUnder path (joinPath path sub) = true := by
  simp only [isUnder, joinPath, Bool.or_eq_true, List.isPrefixOf_iff_prefix,
    String.data_append, List.append_assoc]
  refine Or.inr ?_
  rw [← List.append_assoc]
  exact List.prefix_append _ _

theorem isUnder_self (path : String) : isUnder path path = true := by
  simp [isUnder]

theorem readFile_removeAll_of_isUnder (fs : FS) (path name : String)
    (h : isUnder path name = true) :
    readFile (removeAll fs path) name = none := by
  induction fs with
  | nil => rfl
  | cons p t ih =>
    by_cases hp : isUnder path p.1 = true
    · have hdrop : removeAll (p :: t) path = removeAll t path := by
        simp [removeAll, List.filter_cons, hp]
      rw [hdrop]
      exact ih
    · have hne : ¬ p.1 = name := fun hq => hp (hq ▸ h)
      have hkeep : readFile (removeAll (p :: t) path) name =
          readFile (removeAll t path) name := by
        simp [removeAll, readFile, List.filter_cons, List.find?_cons, hp, hne]
      rw [hkeep]
      exact ih

theorem readFile_removeAll (fs : FS) (path sub : String) :
    readFile (removeAll fs path) (joinPath path sub) = none :=
  readFile_removeAll_of_isUnder fs path (joinPath path sub) (isUnder_joinPath path sub)

/-! ## Claim theorems -/

/-- C8: for every configuration in which neither the listen-address
setting nor the listen-port setting is user-set by flag or environment
variable, the resolved listen address is ":8080" — the documented default
port 8080 with no bound host. -/
theorem default_listen_addr (c : Cmdline) (e : Env)
    (hf : c.httpAddr = none) (hp : c.port = none)
    (hea : lookupEnv e "SCEP_HTTP_ADDR" = none)
    (hep : lookupEnv e "SCEP_HTTP_LISTEN_PORT" = none) :
    resolveHttpAddr c e = .ok ":8080" := by
  simp [resolveHttpAddr, httpAddrSet, portSet, hf, hp, hea, hep, flPort, envString, getenv]

theorem default_listen_addr_witness :
    resolveHttpAddr ⟨none, none⟩ [] = .ok ":8080" :=
  default_listen_addr ⟨none, none⟩ [] rfl rfl rfl rfl

/-- C6: for every configuration in which both the listen-address setting
and the listen-port setting are user-set (each by flag, by environment
variable, or one of each), resolution fails and the process exits with
status 1 before any depot access or listener startup occurs: the startup
sequence performs no action at all and leaves the filesystem untouched. -/
theorem addr_conflict_fatal (m : MainFlags) (e : Env) (caf : CaFlags) (o : CaOracle)
    (fs0 : FS) (removeOk : Bool) (openDepot : FS → Bool) (midOk : Bool)
    (ha : httpAddrSet ⟨m.httpAddr, m.port⟩ e = true)
    (hp : portSet ⟨m.httpAddr, m.port⟩ e = true) :
    resolveHttpAddr ⟨m.httpAddr, m.port⟩ e =
      .error "cannot set both -http-addr and -port" ∧
    mainStartup m e caf o fs0 removeOk openDepot midOk = ([], fs0, some 1) := by
  have hr : resolveHttpAddr ⟨m.httpAddr, m.port⟩ e =
      .error "cannot set both -http-addr and -port" := by
    simp [resolveHttpAddr, ha, hp]
  exact ⟨hr, by simp [mainStartup, hr]⟩

theorem addr_conflict_fatal_witness :
    resolveHttpAddr ⟨some ":9000", none⟩ [("SCEP_HTTP_LISTEN_PORT", "9")] =
      .error "cannot set both -http-addr and -port" ∧
    mainStartup ⟨some ":9000", none, "depot", false, false, false⟩
      [("SCEP_HTTP_LISTEN_PORT", "9")] genCaFlags trivOracle [] true (fun _ => true) true =
      ([], [], some 1) :=
  addr_conflict_fatal ⟨some ":9000", none, "depot", false, false, false⟩
    [("SCEP_HTTP_LISTEN_PORT", "9")] genCaFlags trivOracle [] true (fun _ => true) true
    (by decide) (by decide)

/-- C9: an environment variable that is present but empty counts as
set-by-user for the conflict check (existence lookup), even though value
resolution (`envString`) treats an empty environment value as absent and
falls back to the default; so with SCEP_HTTP_ADDR present-but-empty and
the port setting also user-set, startup exits with status 1 on the
address conflict. -/
theorem empty_env_addr_conflict (m : MainFlags) (e : Env) (caf : CaFlags) (o : CaOracle)
    (fs0 : FS) (removeOk : Bool) (openDepot : FS → Bool) (midOk : Bool) (d : String)
    (he : lookupEnv e "SCEP_HTTP_ADDR" = some "")
    (hp : portSet ⟨m.httpAddr, m.port⟩ e = true) :
    envString e "SCEP_HTTP_ADDR" d = d ∧
    httpAddrSet ⟨m.httpAddr, m.port⟩ e = true ∧
    mainStartup m e caf o fs0 removeOk openDepot midOk = ([], fs0, some 1) := by
  have hset : httpAddrSet ⟨m.httpAddr, m.port⟩ e = true := by
    simp [httpAddrSet, he]
  have hr : resolveHttpAddr ⟨m.httpAddr, m.port⟩ e =
      .error "cannot set both -http-addr and -port" := by
    simp [resolveHttpAddr, hset, hp]
  refine ⟨?_, hset, by simp [mainStartup, hr]⟩
  simp [envString, getenv, he]

theorem empty_env_addr_conflict_witness :
    envString [("SCEP_HTTP_ADDR", "")] "SCEP_HTTP_ADDR" "fallback" = "fallback" ∧
    httpAddrSet ⟨none, some "9000"⟩ [("SCEP_HTTP_ADDR", "")] = true ∧
    mainStartup ⟨none, some "9000", "depot", false, false, false⟩
      [("SCEP_HTTP_ADDR", "")] genCaFlags trivOracle [] true (fun _ => true) true =
      ([], [], some 1) :=
  empty_env_addr_conflict ⟨none, some "9000", "depot", false, false, false⟩
    [("SCEP_HTTP_ADDR", "")] genCaFlags trivOracle [] true (fun _ => true) true "fallback"
    (by decide) (by decide)

/-- C4: exactly one provisioning strategy runs per bootstrap invocation,
selected by input presence with first-match priority: both inline inputs
non-empty selects the inline strategy; otherwise both path inputs
non-empty selects the path-copy strategy; otherwise (including when only
one member of a pair is supplied) the generate strategy runs with the
configured parameters. `chosenStrategy` restates the claimed selection
rule; `caMain` is the code. -/
theorem strategy_first_match (f : CaFlags) (fs : FS) (o : CaOracle) :
    (caMain f fs o =
      match chosenStrategy f with
      | .inlineMaterial => runInline f fs o
      | .pathCopy => runPathCopy f fs o
      | .generate => runGenerate f fs o) ∧
    (chosenStrategy f = .inlineMaterial ↔ (f.inlineCert ≠ "" ∧ f.inlineKey ≠ "")) ∧
    (chosenStrategy f = .pathCopy ↔
      (¬ (f.inlineCert ≠ "" ∧ f.inlineKey ≠ "") ∧ f.pathCert ≠ "" ∧ f.pathKey ≠ "")) ∧
    (chosenStrategy f = .generate ↔
      (¬ (f.inlineCert ≠ "" ∧ f.inlineKey ≠ "") ∧ ¬ (f.pathCert ≠ "" ∧ f.pathKey ≠ ""))) := by
  unfold caMain chosenStrategy
  by_cases h1 : f.inlineCert ≠ "" ∧ f.inlineKey ≠ ""
  · simp [h1]
  · by_cases h2 : f.pathCert ≠ "" ∧ f.pathKey ≠ ""
    · simp [h1, h2]
    · simp [h1, h2]

/-- C7: running the generate strategy against a depot that already holds
`ca.key` and `ca.pem` returns exit status 1, the exclusive create of
`ca.key` reports already-exists, and the filesystem — in particular both
existing artifacts — is byte-for-byte unchanged: no new key material or
certificate is written. -/
theorem generate_rerun_unchanged (f : CaFlags) (fs : FS) (o : CaOracle) (kb pb : List Nat)
    (hni : ¬ (f.inlineCert ≠ "" ∧ f.inlineKey ≠ ""))
    (hnp : ¬ (f.pathCert ≠ "" ∧ f.pathKey ≠ ""))
    (hk : readFile fs (joinPath f.depotPath "ca.key") = some kb)
    (hpem : readFile fs (joinPath f.depotPath "ca.pem") = some pb) :
    caMain f fs o = (1, fs) ∧
    (createKey fs f.keySize (strBytes f.password) f.depotPath o).2 =
      .error .alreadyExists ∧
    readFile (caMain f fs o).2 (joinPath f.depotPath "ca.key") = some kb ∧
    readFile (caMain f fs o).2 (joinPath f.depotPath "ca.pem") = some pb := by
  have hck : createKey fs f.keySize (strBytes f.password) f.depotPath o =
      (fs, .error .alreadyExists) := by
    simp [createKey, openFileExcl, hk]
  have hcm : caMain f fs o = (1, fs) := by
    simp [caMain, hni, hnp, runGenerate, hck]
  exact ⟨hcm, by simp [hck], by simp [hcm, hk], by simp [hcm, hpem]⟩

theorem generate_rerun_unchanged_witness :
    caMain genCaFlags [("depot/ca.key", [1]), ("depot/ca.pem", [2])] trivOracle =
      (1, [("depot/ca.key", [1]), ("depot/ca.pem", [2])]) ∧
    (createKey [("depot/ca.key", [1]), ("depot/ca.pem", [2])] genCaFlags.keySize
      (strBytes genCaFlags.password) genCaFlags.depotPath trivOracle).2 =
      .error .alreadyExists ∧
    readFile (caMain genCaFlags [("depot/ca.key", [1]), ("depot/ca.pem", [2])] trivOracle).2
      (joinPath genCaFlags.depotPath "ca.key") = some [1] ∧
    readFile (caMain genCaFlags [("depot/ca.key", [1]), ("depot/ca.pem", [2])] trivOracle).2
      (joinPath genCaFlags.depotPath "ca.pem") = some [2] :=
  generate_rerun_unchanged genCaFlags [("depot/ca.key", [1]), ("depot/ca.pem", [2])]
    trivOracle [1] [2] (by decide) (by decide) (by decide) (by decide)

/-- C2 counterexample: in a depot where `ca.pem` already exists, the
path-copy strategy does not fail with an already-exists error — it
succeeds and replaces the existing bytes, because `copyFileToDepot` uses
a create-or-truncate write instead of an exclusive create. -/
theorem pathCopy_overwrite_cx :
    readFile [("srcdir/cert.pem", [9]), ("depot/ca.pem", [1, 2, 3])] "depot/ca.pem" =
      some [1, 2, 3] ∧
    copyFileToDepot [("srcdir/cert.pem", [9]), ("depot/ca.pem", [1, 2, 3])]
      "srcdir/cert.pem" "depot" "ca.pem" true =
      .ok [("depot/ca.pem", [9]), ("srcdir/cert.pem", [9])] ∧
    readFile [("depot/ca.pem", [9]), ("srcdir/cert.pem", [9])] "depot/ca.pem" = some [9] ∧
    ([9] : List Nat) ≠ [1, 2, 3] :=
  ⟨rfl, rfl, rfl, by decide⟩

/-- C2 amended: the path-copy strategy writes the caller-supplied files
into the depot with `ioutil.WriteFile` (create-or-truncate): for every
depot in which the target artifact already exists, the copy succeeds and
the artifact afterwards holds the source file's bytes, replacing the
previous contents; no already-exists error is produced. -/
theorem pathCopy_overwrites (fs : FS) (src depotPath filename : String)
    (input old : List Nat)
    (hs : readFile fs src = some input)
    (_hold : readFile fs (joinPath depotPath filename) = some old) :
    copyFileToDepot fs src depotPath filename true =
      .ok (writeFile fs (joinPath depotPath filename) input) ∧
    readFile (writeFile fs (joinPath depotPath filename) input)
      (joinPath depotPath filename) = some input :=
  ⟨by simp [copyFileToDepot, hs], readFile_writeFile_self fs (joinPath depotPath filename) input⟩

theorem pathCopy_overwrites_witness :
    copyFileToDepot [("srcdir/key.pem", [4]), ("depot/ca.key", [5, 6])]
      "srcdir/key.pem" "depot" "ca.key" true =
      .ok (writeFile [("srcdir/key.pem", [4]), ("depot/ca.key", [5, 6])]
        (joinPath "depot" "ca.key") [4]) ∧
    readFile (writeFile [("srcdir/key.pem", [4]), ("depot/ca.key", [5, 6])]
      (joinPath "depot" "ca.key") [4]) (joinPath "depot" "ca.key") = some [4] :=
  pathCopy_overwrites [("srcdir/key.pem", [4]), ("depot/ca.key", [5, 6])]
    "srcdir/key.pem" "depot" "ca.key" [4] [5, 6] (by decide) (by decide)

/-- C3 counterexample: a key-generation failure occurs after the `ca.key`
file handle has been exclusively created, yet the artifact is not removed
before the error is returned — the (empty) `ca.key` stays in the depot,
so a retried initialization hits the exclusive create. -/
theorem createKey_leftover_cx :
    createKey [] 2048 [] "depot" genFailOracle =
      ([("depot/ca.key", [])], .error .genFail) ∧
    readFile (createKey [] 2048 [] "depot" genFailOracle).1 "depot/ca.key" = some [] ∧
    ¬ readFile (createKey [] 2048 [] "depot" genFailOracle).1 "depot/ca.key" = none :=
  ⟨rfl, rfl, by decide⟩

/-- C3 amended: of the failures occurring after the `ca.key` handle has
been exclusively created, only a PEM-encoding failure removes the partial
artifact before the error is returned; a key-generation or
passphrase-encryption failure leaves the exclusively created (empty)
`ca.key` in place. On success the file holds the encoded bytes. -/
theorem createKey_cleanup (fs : FS) (bits : Nat) (pw : List Nat) (depot : String)
    (o : CaOracle)
    (h : readFile fs (joinPath depot "ca.key") = none) :
    readFile (createKey fs bits pw depot o).1 (joinPath depot "ca.key") =
      (match o.genKey bits with
       | .error _ => some []
       | .ok key =>
         match o.encrypt key pw with
         | .error _ => some []
         | .ok block =>
           match o.pemEncode block with
           | .error _ => none
           | .ok bytes => some bytes) ∧
    (createKey fs bits pw depot o).2 =
      (match o.genKey bits with
       | .error _ => Except.error CreateKeyErr.genFail
       | .ok key =>
         match o.encrypt key pw with
         | .error _ => Except.error CreateKeyErr.encryptFail
         | .ok block =>
           match o.pemEncode block with
           | .error _ => Except.error CreateKeyErr.encodeFail
           | .ok _ => Except.ok key) := by
  have hopen : openFileExcl fs (joinPath depot "ca.key") =
      .ok (writeFile fs (joinPath depot "ca.key") []) := by
    simp [openFileExcl, h]
  rcases hg : o.genKey bits with e | key
  · simp [createKey, hopen, hg, readFile_writeFile_self]
  · rcases he : o.encrypt key pw with e | block
    · simp [createKey, hopen, hg, he, readFile_writeFile_self]
    · rcases hpe : o.pemEncode block with e | bytes
      · simp [createKey, hopen, hg, he, hpe, readFile_removeFile_self]
      · simp [createKey, hopen, hg, he, hpe, readFile_writeFile_self]

theorem createKey_cleanup_witness :
    readFile (createKey [] 2048 [] "depot" encodeFailOracle).1
      (joinPath "depot" "ca.key") = none ∧
    (createKey [] 2048 [] "depot" encodeFailOracle).2 =
      Except.error CreateKeyErr.encodeFail ∧
    readFile (createKey [] 2048 [] "depot" encryptFailOracle).1
      (joinPath "depot" "ca.key") = some [] ∧
    (createKey [] 2048 [] "depot" encryptFailOracle).2 =
      Except.error CreateKeyErr.encryptFail := by
  have h1 := createKey_cleanup [] 2048 [] "depot" encodeFailOracle (by decide)
  have h2 := createKey_cleanup [] 2048 [] "depot" encryptFailOracle (by decide)
  refine ⟨?_, ?_, ?_, ?_⟩
  · simpa [encodeFailOracle] using h1.1
  · simpa [encodeFailOracle] using h1.2
  · simpa [encryptFailOracle] using h2.1
  · simpa [encryptFailOracle] using h2.2

/-- C1: with both a challenge secret and an external CSR verifier
configured, the composed signer is the external-verifier policy wrapping
the challenge policy wrapping the depot signer, so call-time evaluation
is outermost-in: for every signing request the verifier rejects, the only
recorded event is the verifier call — the challenge comparison is never
evaluated and the depot signing operation is never invoked — and the
request is rejected. -/
theorem verifier_rejection_short_circuits (challenge : String)
    (verdict : List Nat → Bool) (base : SigningRequest → Except String Cert)
    (req : SigningRequest)
    (hc : challenge ≠ "")
    (hv : verdict req.rawCSR = false) :
    buildSigner challenge true verdict base =
      csrverifierMiddleware verdict (ChallengeMiddleware challenge (depotSigner base)) ∧
    (buildSigner challenge true verdict base req).1 = [SigEvent.verifierCalled] ∧
    SigEvent.challengeCompared ∉ (buildSigner challenge true verdict base req).1 ∧
    SigEvent.depotSigned ∉ (buildSigner challenge true verdict base req).1 ∧
    (buildSigner challenge true verdict base req).2 = .error "CSR failed verification" := by
  have hb : buildSigner challenge true verdict base =
      csrverifierMiddleware verdict (ChallengeMiddleware challenge (depotSigner base)) := by
    simp [buildSigner, hc]
  have happ : buildSigner challenge true verdict base req =
      ([SigEvent.verifierCalled], .error "CSR failed verification") := by
    rw [hb]
    simp [csrverifierMiddleware, hv]
  refine ⟨hb, ?_, ?_, ?_, ?_⟩ <;> simp [happ]

theorem verifier_rejection_short_circuits_witness :
    buildSigner "secret" true (fun _ => false) (fun _ => .ok 0) =
      csrverifierMiddleware (fun _ => false)
        (ChallengeMiddleware "secret" (depotSigner (fun _ => .ok 0))) ∧
    (buildSigner "secret" true (fun _ => false) (fun _ => .ok 0) ⟨"pw", [1]⟩).1 =
      [SigEvent.verifierCalled] ∧
    SigEvent.challengeCompared ∉
      (buildSigner "secret" true (fun _ => false) (fun _ => .ok 0) ⟨"pw", [1]⟩).1 ∧
    SigEvent.depotSigned ∉
      (buildSigner "secret" true (fun _ => false) (fun _ => .ok 0) ⟨"pw", [1]⟩).1 ∧
    (buildSigner "secret" true (fun _ => false) (fun _ => .ok 0) ⟨"pw", [1]⟩).2 =
      .error "CSR failed verification" :=
  verifier_rejection_short_circuits "secret" (fun _ => false) (fun _ => .ok 0)
    ⟨"pw", [1]⟩ (by decide) rfl

/-- C5 counterexample: in serverless (lambda) mode the chosen execution
mode performs no send on the shared result channel — `lambda.Start` is
invoked without ever sending an outcome — contradicting the claim that
both the chosen execution mode and the signal watcher send their outcome
onto the channel. -/
theorem lambda_mode_sends_nothing_cx :
    serverGoroutineSends true = 0 ∧ ¬ serverGoroutineSends true = 1 := by
  decide

/-- C5 amended: the shared result channel has capacity 2, enough for
every send performed in either mode without blocking; in listener mode
the execution mode sends its outcome (one send) and in serverless mode
it sends nothing; the signal watcher always sends one outcome; the
launcher blocks on a single receive, logs it, and the process terminates. -/
theorem errs_channel_race :
    errsCapacity = 2 ∧
    serverGoroutineSends false = 1 ∧
    serverGoroutineSends true = 0 ∧
    signalGoroutineSends = 1 ∧
    totalSends false ≤ errsCapacity ∧
    totalSends true ≤ errsCapacity ∧
    launcherReceives = 1 := by
  decide

/-- C10: when the delete-ca toggle is set, the whole depot tree —
including any existing `ca.key` and `ca.pem`, bypassing the
exclusive-create protection — is removed recursively before the depot is
opened: the filesystem handed to the depot open is `removeAll` of the
original, under which every depot artifact reads as absent, and the
startup actions place the removal after the listing and before the open;
if the removal fails, the filesystem is left as it was and startup
continues through the very same action sequence rather than exiting. -/
theorem deleteCA_wipes_depot (m : MainFlags) (e : Env) (caf : CaFlags) (o : CaOracle)
    (fs0 : FS) (removeOk : Bool) (openDepot : FS → Bool) (midOk : Bool)
    (sub addr : String)
    (hd : m.deleteCA = true)
    (hr : resolveHttpAddr ⟨m.httpAddr, m.port⟩ e = .ok addr) :
    fsAtDepotOpen m fs0 true = removeAll fs0 m.depotPath ∧
    readFile (removeAll fs0 m.depotPath) (joinPath m.depotPath sub) = none ∧
    readFile (removeAll fs0 m.depotPath) m.depotPath = none ∧
    fsAtDepotOpen m fs0 false = fs0 ∧
    actsAtDepotOpen m =
      [MainAction.depotList, MainAction.depotRemove, MainAction.depotOpen] ∧
    actsAtDepotOpen m <+: (mainStartup m e caf o fs0 removeOk openDepot midOk).1 := by
  refine ⟨by simp [fsAtDepotOpen, hd], readFile_removeAll fs0 m.depotPath sub,
    readFile_removeAll_of_isUnder fs0 m.depotPath m.depotPath (isUnder_self m.depotPath),
    by simp [fsAtDepotOpen, hd], by simp [actsAtDepotOpen, hd], ?_⟩
  unfold mainStartup
  rw [hr]
  simp only []
  split_ifs <;>
    first
      | exact List.prefix_refl _
      | exact List.prefix_append _ _
      | (rw [List.append_assoc]; exact List.prefix_append _ _)

theorem deleteCA_wipes_depot_witness :
    fsAtDepotOpen ⟨none, none, "depot", true, false, false⟩
      [("depot/ca.key", [1]), ("depot/ca.pem", [2])] true =
      removeAll [("depot/ca.key", [1]), ("depot/ca.pem", [2])] "depot" ∧
    readFile (removeAll [("depot/ca.key", [1]), ("depot/ca.pem", [2])] "depot")
      (joinPath "depot" "ca.key") = none ∧
    readFile (removeAll [("depot/ca.key", [1]), ("depot/ca.pem", [2])] "depot")
      "depot" = none ∧
    fsAtDepotOpen ⟨none, none, "depot", true, false, false⟩
      [("depot/ca.key", [1]), ("depot/ca.pem", [2])] false =
      [("depot/ca.key", [1]), ("depot/ca.pem", [2])] ∧
    actsAtDepotOpen ⟨none, none, "depot", true, false, false⟩ =
      [MainAction.depotList, MainAction.depotRemove, MainAction.depotOpen] ∧
    actsAtDepotOpen ⟨none, none, "depot", true, false, false⟩ <+:
      (mainStartup ⟨none, none, "depot", true, false, false⟩ [] genCaFlags trivOracle
        [("depot/ca.key", [1]), ("depot/ca.pem", [2])] true (fun _ => true) true).1 :=
  deleteCA_wipes_depot ⟨none, none, "depot", true, false, false⟩ [] genCaFlags
    trivOracle [("depot/ca.key", [1]), ("depot/ca.pem", [2])] true (fun _ => true) true
    "ca.key" ":8080" rfl rfl

end Scepserver
